import Mathlib

/-!
Verification development for the resume-screening agent core.

The embedded code is the candidate analyzer of `agent_brain.py`
(`AgentBrain._calculate_confidence`, `_identify_gaps`,
`_determine_confidence_level`, `_make_decision`, `analyze_candidate`)
and the question-generation fallback logic of `generate_question.py`
(`QuestionGenerator.generate_questions`, `_parse_questions`,
`_generate_template_questions`).

Modelling conventions:
* Python dict accesses `d.get(k, default)` become `Option.getD`;
  direct accesses `d[k]` (which raise `KeyError` when the key is
  absent) become `Option` matches, with `analyze_candidate` returning
  `none` exactly when such an access fails.
* Python floats are idealized as exact rational/real arithmetic.
  `numpy.std` needs a square root, hence the confidence computation
  lives in `ℝ`; everything not touching it is computable.
* `reasoning` (pure string formatting of already-computed values, with
  no failure path and no claim about it) is not carried in the model.
* `list(set(...))` is modelled by `List.dedup` (same members and
  cardinality; no claim depends on element order).
-/

namespace ResumeAgent

/-- Python's substring test `needle in hay`, on character lists:
true iff `needle` occurs contiguously inside `hay`. -/
def char_list_in (needle : List Char) : List Char → Bool
  | [] => needle.isEmpty
  | c :: rest => needle.isPrefixOf (c :: rest) || char_list_in needle rest

/-- Python's `sub in s` on strings. -/
def py_str_in (sub s : String) : Bool :=
  char_list_in sub.toList s.toList

/-- Python's `s.lower()`: character-wise lowercasing (the skill names
compared in the source are ASCII). -/
def py_lower (s : String) : String :=
  String.mk (s.toList.map Char.toLower)

/-- Python's `s.strip()`: drop whitespace from both ends. -/
def py_strip (s : String) : String :=
  String.mk (((s.toList.dropWhile (fun ch => ch.isWhitespace)).reverse.dropWhile
    (fun ch => ch.isWhitespace)).reverse)

/-- `ConfidenceLevel` enum of agent_brain.py. -/
inductive ConfidenceLevel where
  | high
  | medium
  | low
deriving DecidableEq

/-- `AgentDecision` enum of agent_brain.py. -/
inductive AgentDecision where
  | auto_shortlist
  | ask_questions
  | auto_reject
deriving DecidableEq

/-- The `contact` sub-dict of a parsed candidate; `name` and `email`
are read with `.get`, so each may be absent. -/
structure Contact where
  name : Option String
  email : Option String
deriving DecidableEq

/-- One entry of the candidate's `experience` list; only its
`description` (read with `.get('description', '')`, default folded in)
is ever used. -/
structure Experience where
  description : String
deriving DecidableEq

/-- A parsed candidate record (`candidate_data` dict).  Each field is
`Option` because the corresponding key may be absent from the dict.
`skills` is a dict in Python, but only its key count is ever used, so
it is modelled as a list; likewise `education` and `projects` entries
are only counted, never inspected. -/
structure Candidate where
  contact : Option Contact
  experience : Option (List Experience)
  skills : Option (List String)
  education : Option (List String)
  projects : Option (List String)
deriving DecidableEq

/-- The job description dict.  All three keys are read with `.get` and
a default (`[]`, `[]`, `0`), so the defaults are folded into the
fields. -/
structure JobData where
  required_skills : List String
  must_have_skills : List String
  min_experience : ℚ
deriving DecidableEq

/-- The `match_scores` dict produced upstream.  Every field is
`Option` because `analyze_candidate` reads `overall_score`,
`skills_score` and `experience_score` with raising `[]`-access while
the rest are read with `.get`. -/
structure MatchScores where
  overall_score : Option ℚ
  skills_score : Option ℚ
  experience_score : Option ℚ
  education_score : Option ℚ
  matched_skills : Option (List String)
  missing_skills : Option (List String)
deriving DecidableEq

/-- The `CandidateAnalysis` dataclass (sans the `reasoning` strings,
see the header comment). -/
structure CandidateAnalysis where
  candidate_name : String
  candidate_email : String
  base_score : ℚ
  confidence_score : ℝ
  confidence_level : ConfidenceLevel
  decision : AgentDecision
  missing_info : List String
  critical_gaps : List String
  matched_skills : List String
  missing_skills : List String

/-- `AgentBrain._extract_critical_skills`: required plus must-have
skills, deduplicated (`list(set(critical + must_have))`). -/
def extract_critical_skills (job : JobData) : List String :=
  (job.required_skills ++ job.must_have_skills).dedup

/-- Truthiness-plus-length test used in `_calculate_confidence`:
`candidate_data.get(field) and len(candidate_data[field]) > 0`. -/
def presentNonempty {α : Type} (o : Option (List α)) : Bool :=
  match o with
  | some l => !l.isEmpty
  | none => false

/-- Factor 1 of `_calculate_confidence`: fraction of
{experience, skills, education} present and non-empty. -/
def completeness_factor (c : Candidate) : ℚ :=
  (((if presentNonempty c.experience then 1 else 0) +
    (if presentNonempty c.skills then 1 else 0) +
    (if presentNonempty c.education then 1 else 0) : ℚ)) / 3

/-- Factor 2 of `_calculate_confidence`: the number of matched skills
containing some critical skill as a case-insensitive substring,
divided by the number of critical skills, times 1.5; fixed at 1.0
when there are no critical skills. -/
def critical_coverage_factor (criticals matched : List String) : ℚ :=
  if criticals.isEmpty then 1
  else
    ((matched.filter (fun s =>
        criticals.any (fun crit => py_str_in (py_lower crit) (py_lower s)))).length : ℚ)
      / (criticals.length : ℚ) * 1.5

/-- Factor 3 of `_calculate_confidence`: average description length
over 200, clamped above at 1; fixed at 0.3 with no experience. -/
def experience_detail_factor (exps : List Experience) : ℚ :=
  if exps.isEmpty then 0.3
  else
    min 1 ((((exps.map (fun e => (e.description.length : ℚ))).sum) / (exps.length : ℚ)) / 200)

/-- `numpy.mean` on a list of reals. -/
noncomputable def np_mean (xs : List ℝ) : ℝ :=
  xs.sum / (xs.length : ℝ)

/-- `numpy.std` (population standard deviation) on a list of reals. -/
noncomputable def np_std (xs : List ℝ) : ℝ :=
  Real.sqrt (((xs.map (fun x => (x - np_mean xs) ^ 2)).sum) / (xs.length : ℝ))

/-- `AgentBrain._calculate_confidence`.  The four factors are listed in
source order; the fourth (score consistency) is guarded by
`len(component_scores) > 1` exactly as in the source (the guard is
statically true since the list literal has three entries). -/
noncomputable def calculate_confidence (criticals : List String) (c : Candidate)
    (m : MatchScores) (matched_skills _missing_skills : List String) : ℝ :=
  let factors : List ℝ :=
    [((completeness_factor c : ℚ) : ℝ),
     ((critical_coverage_factor criticals matched_skills : ℚ) : ℝ),
     ((experience_detail_factor (c.experience.getD []) : ℚ) : ℝ)]
  let component_scores : List ℝ :=
    [((m.skills_score.getD 0 : ℚ) : ℝ),
     ((m.experience_score.getD 0 : ℚ) : ℝ),
     ((m.education_score.getD 0 : ℚ) : ℝ)]
  let factors :=
    if component_scores.length > 1 then
      factors ++ [max 0 (1 - np_std component_scores / 50)]
    else factors
  min 1 (np_mean factors)

/-- `AgentBrain._identify_gaps`.  Returns `(missing_info,
critical_gaps)`.  The Python signature also receives `missing_skills`,
which the body never uses. -/
def identify_gaps (criticals : List String) (minExp : ℚ) (c : Candidate)
    (matched_skills _missing_skills : List String) : List String × List String :=
  let experiences := c.experience.getD []
  let skill_notes :=
    (criticals.filter (fun crit =>
        !matched_skills.any (fun s => py_str_in (py_lower crit) (py_lower s)))).map
      (fun crit => ("No evidence of ") ++ crit)
  let skill_gaps :=
    criticals.filter (fun crit =>
      !matched_skills.any (fun s => py_str_in (py_lower crit) (py_lower s)))
  let exp_pair : List String × List String :=
    if experiences.isEmpty then
      ([("No work experience details")], [("work_experience")])
    else if 2 * experiences.countP (fun e => e.description.length < 50) >
        experiences.length then
      ([("Work experience lacks detail")], [])
    else ([], [])
  let proj_pair : List String × List String :=
    if minExp < 2 ∧ (c.projects.getD []).isEmpty then
      ([("No projects mentioned")],
       if experiences.isEmpty then [("projects")] else [])
    else ([], [])
  (skill_notes ++ exp_pair.1 ++ proj_pair.1, skill_gaps ++ exp_pair.2 ++ proj_pair.2)

/-- `AgentBrain._determine_confidence_level` with the fixed thresholds
0.75 and 0.40 set in `__init__`. -/
noncomputable def determine_confidence_level (confidence_score : ℝ) : ConfidenceLevel :=
  if confidence_score ≥ 0.75 then ConfidenceLevel.high
  else if confidence_score ≥ 0.40 then ConfidenceLevel.medium
  else ConfidenceLevel.low

/-- `AgentBrain._make_decision`. -/
def make_decision (confidence_level : ConfidenceLevel)
    (critical_gaps : List String) (base_score : ℚ) : AgentDecision :=
  match confidence_level with
  | ConfidenceLevel.high => AgentDecision.auto_shortlist
  | ConfidenceLevel.medium =>
      if !critical_gaps.isEmpty then AgentDecision.ask_questions
      else if base_score ≥ 60 then AgentDecision.auto_shortlist
      else AgentDecision.ask_questions
  | ConfidenceLevel.low =>
      if critical_gaps.length ≤ 2 ∧ base_score ≥ 40 then AgentDecision.ask_questions
      else AgentDecision.auto_reject

/-- The `CandidateAnalysis` value built by a successful
`analyze_candidate` run, given the values of the raising dict accesses
(`base` from `match_scores['overall_score']`, `ct` from
`candidate_data['contact']`). -/
noncomputable def mkAnalysis (job : JobData) (c : Candidate) (m : MatchScores)
    (base : ℚ) (ct : Contact) : CandidateAnalysis :=
  let criticals := extract_critical_skills job
  let matched := m.matched_skills.getD []
  let missing := m.missing_skills.getD []
  let conf := calculate_confidence criticals c m matched missing
  let gaps := identify_gaps criticals job.min_experience c matched missing
  let lvl := determine_confidence_level conf
  ⟨ct.name.getD ("Unknown"), ct.email.getD (""), base, conf, lvl,
   make_decision lvl gaps.2 base, gaps.1, gaps.2, matched, missing⟩

/-- `AgentBrain.analyze_candidate`.  `none` models an uncaught
`KeyError` from the raising accesses `match_scores['overall_score']`,
`match_scores['skills_score']`, `match_scores['experience_score']` or
`candidate_data['contact']`; every other field is read with a
default. -/
noncomputable def analyze_candidate (job : JobData) (c : Candidate)
    (m : MatchScores) : Option CandidateAnalysis :=
  match m.overall_score, m.skills_score, m.experience_score, c.contact with
  | some base, some _sk, some _ex, some ct => some (mkAnalysis job c m base ct)
  | _, _, _, _ => none

/-- One generated follow-up question, as returned by
`QuestionGenerator.generate_questions`. -/
structure QA where
  question : String
  gap_addressed : String
  priority : String
deriving DecidableEq

/-- Outcome of `json.loads` (Python standard library, outside this
repository) applied to the code-fence-stripped model response inside
`QuestionGenerator._parse_questions`: a JSON list of question records,
valid JSON that is not a list (the `isinstance(questions, list)` check
fails), or invalid JSON (a `json.JSONDecodeError`). -/
inductive ParseResult where
  | ok (qs : List QA)
  | notList
  | malformed
deriving DecidableEq

/-- `QuestionGenerator._parse_questions`: returns the decoded list on
success; its own `except` branch turns any parse failure into a single
question wrapping the stripped raw response text, addressed to
"general" with priority "medium" — no exception escapes it. -/
def parse_questions (response_text : String) (r : ParseResult) : List QA :=
  match r with
  | ParseResult.ok qs => qs
  | ParseResult.notList => [⟨py_strip response_text, ("general"), ("medium")⟩]
  | ParseResult.malformed => [⟨py_strip response_text, ("general"), ("medium")⟩]

/-- `QuestionGenerator._generate_template_questions`: one canned
question per gap for the first 3 critical gaps, keyed by gap type,
each with priority "high".  The `missing_info` parameter is received
but never used, as in the source. -/
def generate_template_questions (critical_gaps : List String)
    (_missing_info : List String) : List QA :=
  (critical_gaps.take 3).map (fun gap =>
    if gap = ("work_experience") then
      ⟨("Could you provide details about your work experience? Include company names, roles, duration, and key responsibilities."),
       ("work_experience"), ("high")⟩
    else if gap = ("projects") then
      ⟨("Could you describe 1-2 relevant projects you\x27ve worked on? Include technologies used and your specific contributions."),
       ("projects"), ("high")⟩
    else
      ⟨("The job requires ") ++ gap ++ (". Do you have experience with ") ++ gap ++
         ("? If yes, please describe one project where you used it."),
       gap, ("high")⟩)

/-- `QuestionGenerator.generate_questions`.  The external
chat-completion call is modelled by its observable outcome:
`none` when the API call raises (the `except` branch falls back to the
template questions), `some (text, r)` when it returns response text
`text` whose `json.loads` outcome is `r` (see `ParseResult`).  The
`job_data`, `candidate_data` and `confidence_score` parameters of the
Python method only shape the prompt string sent to the model, so they
do not appear in the model. -/
def generate_questions (call_result : Option (String × ParseResult))
    (critical_gaps missing_info : List String) : List QA :=
  match call_result with
  | none => generate_template_questions critical_gaps missing_info
  | some (text, r) => parse_questions text r

/-- Second definition for the coverage-factor refinement claim,
following the specification's words: the fraction of the job's
critical-skill set found (case-insensitive substring match) among the
candidate's matched skills, multiplied by 1.5; 1.0 when the
critical-skill set is empty. -/
def spec_critical_coverage_factor (criticals matched : List String) : ℚ :=
  if criticals.isEmpty then 1
  else
    ((criticals.filter (fun crit =>
        matched.any (fun s => py_str_in (py_lower crit) (py_lower s)))).length : ℚ)
      / (criticals.length : ℚ) * 1.5

/-! ### Concrete scenarios used by counterexamples and witnesses -/

/-- A job requiring the single critical skill "python", minimum
experience 2 (so the entry-level projects branch is inactive). -/
def job1 : JobData := ⟨[("python")], [], 2⟩

/-- A job whose two critical skills "a" and "b" are both substrings of
the single candidate skill "ab". -/
def job3 : JobData := ⟨[("a"), ("b")], [], 2⟩

/-- Candidate with empty experience but non-empty skills/education. -/
def cand1 : Candidate :=
  ⟨some ⟨some ("X"), some ("x@example.com")⟩, some [], some [("s")], some [("e")], some []⟩

/-- Fully empty candidate; contact present but with no name/email. -/
def cand2 : Candidate := ⟨some ⟨none, none⟩, some [], some [], some [], some []⟩

/-- Candidate with one vague (5-character) experience description and
complete sections. -/
def cand3 : Candidate :=
  ⟨some ⟨some ("N"), some ("n@example.com")⟩, some [⟨("short")⟩], some [("ab")],
   some [("e")], some []⟩

/-- Candidate with one detailed (200-character) experience description
and complete sections. -/
def cand4 : Candidate :=
  ⟨some ⟨some ("M"), some ("m@example.com")⟩,
   some [⟨String.mk (List.replicate 200 'a')⟩], some [("python")], some [("e")],
   some []⟩

/-- Candidate record without a `contact` key. -/
def cand5 : Candidate := ⟨none, some [], some [("s")], some [("e")], some []⟩

/-- Match scores: decent overall, identical component scores, nothing
matched. -/
def ms1 : MatchScores := ⟨some 65, some 50, some 50, some 50, some [], some []⟩

/-- Match scores: low overall, identical component scores, nothing
matched. -/
def ms2 : MatchScores := ⟨some 30, some 30, some 30, some 30, some [], some []⟩

/-- Match scores: overall exactly 75, identical component scores,
matched skill "ab". -/
def ms3 : MatchScores := ⟨some 75, some 75, some 75, some 75, some [("ab")], some []⟩

/-- Match scores: overall 80, identical component scores, matched
skill "python". -/
def ms4 : MatchScores := ⟨some 80, some 75, some 75, some 75, some [("python")], some []⟩

/-! ### Helper lemmas -/

lemma np_mean_triple (x : ℝ) : np_mean [x, x, x] = x := by
  simp [np_mean]
  ring

lemma np_std_triple_same (x : ℝ) : np_std [x, x, x] = 0 := by
  simp [np_std, np_mean_triple]

/-- The four-factor form of `calculate_confidence`: the length guard on
the fourth factor is statically true, and `np.mean` averages the four
factors. -/
lemma calc_conf_eq (criticals : List String) (c : Candidate) (m : MatchScores)
    (matched missing : List String) :
    calculate_confidence criticals c m matched missing =
      min 1 ((((completeness_factor c : ℚ) : ℝ) +
        ((critical_coverage_factor criticals matched : ℚ) : ℝ) +
        ((experience_detail_factor (c.experience.getD []) : ℚ) : ℝ) +
        max 0 (1 - np_std
          [((m.skills_score.getD 0 : ℚ) : ℝ),
           ((m.experience_score.getD 0 : ℚ) : ℝ),
           ((m.education_score.getD 0 : ℚ) : ℝ)] / 50)) / 4) := by
  unfold calculate_confidence
  norm_num [np_mean]
  congr 1
  ring

lemma completeness_factor_nonneg (c : Candidate) : 0 ≤ completeness_factor c := by
  unfold completeness_factor
  split_ifs <;> norm_num

lemma completeness_factor_le_one (c : Candidate) : completeness_factor c ≤ 1 := by
  unfold completeness_factor
  split_ifs <;> norm_num

lemma critical_coverage_factor_nonneg (criticals matched : List String) :
    0 ≤ critical_coverage_factor criticals matched := by
  unfold critical_coverage_factor
  split_ifs with h
  · norm_num
  · positivity

lemma experience_detail_factor_nonneg (exps : List Experience) :
    0 ≤ experience_detail_factor exps := by
  unfold experience_detail_factor
  split_ifs with h
  · norm_num
  · refine le_min (by norm_num) ?_
    have hsum : 0 ≤ (exps.map (fun e => (e.description.length : ℚ))).sum := by
      refine List.sum_nonneg ?_
      intro x hx
      obtain ⟨e, _, rfl⟩ := List.mem_map.1 hx
      positivity
    positivity

lemma consistency_nonneg (xs : List ℝ) : 0 ≤ max 0 (1 - np_std xs / 50) :=
  le_max_left 0 _

lemma np_std_nonneg (xs : List ℝ) : 0 ≤ np_std xs := Real.sqrt_nonneg _

lemma consistency_le_one (xs : List ℝ) : max 0 (1 - np_std xs / 50) ≤ 1 := by
  refine max_le (by norm_num) ?_
  have := np_std_nonneg xs
  have : 0 ≤ np_std xs / 50 := by positivity
  linarith

/-- Every confidence factor is nonnegative, hence so is their mean and
its upper clamp. -/
lemma calc_conf_nonneg (criticals : List String) (c : Candidate) (m : MatchScores)
    (matched missing : List String) :
    0 ≤ calculate_confidence criticals c m matched missing := by
  rw [calc_conf_eq]
  have h1 : (0 : ℝ) ≤ ((completeness_factor c : ℚ) : ℝ) := by
    exact_mod_cast completeness_factor_nonneg c
  have h2 : (0 : ℝ) ≤ ((critical_coverage_factor criticals matched : ℚ) : ℝ) := by
    exact_mod_cast critical_coverage_factor_nonneg criticals matched
  have h3 : (0 : ℝ) ≤ ((experience_detail_factor (c.experience.getD []) : ℚ) : ℝ) := by
    exact_mod_cast experience_detail_factor_nonneg (c.experience.getD [])
  have h4 := consistency_nonneg
    [((m.skills_score.getD 0 : ℚ) : ℝ),
     ((m.experience_score.getD 0 : ℚ) : ℝ),
     ((m.education_score.getD 0 : ℚ) : ℝ)]
  refine le_min (by norm_num) ?_
  linarith

lemma determine_eq_high {x : ℝ} (h : 0.75 ≤ x) :
    determine_confidence_level x = ConfidenceLevel.high := by
  unfold determine_confidence_level
  rw [if_pos]
  exact h

lemma determine_eq_medium {x : ℝ} (h1 : 0.40 ≤ x) (h2 : x < 0.75) :
    determine_confidence_level x = ConfidenceLevel.medium := by
  unfold determine_confidence_level
  rw [if_neg (by simpa using not_le.2 h2), if_pos]
  exact h1

lemma determine_eq_low {x : ℝ} (h : x < 0.40) :
    determine_confidence_level x = ConfidenceLevel.low := by
  unfold determine_confidence_level
  have h75 : ¬ x ≥ 0.75 := by
    refine not_le.2 (lt_of_lt_of_le h ?_)
    norm_num
  rw [if_neg h75, if_neg (by simpa using not_le.2 h)]

/-- Inversion for a successful `analyze_candidate` run: the four
raising accesses succeeded and the result is `mkAnalysis`. -/
lemma analyze_some {job : JobData} {c : Candidate} {m : MatchScores}
    {a : CandidateAnalysis} (h : analyze_candidate job c m = some a) :
    ∃ base sk ex ct, m.overall_score = some base ∧ m.skills_score = some sk ∧
      m.experience_score = some ex ∧ c.contact = some ct ∧
      a = mkAnalysis job c m base ct := by
  unfold analyze_candidate at h
  rcases h1 : m.overall_score with _ | base <;> rw [h1] at h
  · exact absurd h (by simp)
  rcases h2 : m.skills_score with _ | sk <;> rw [h2] at h
  · exact absurd h (by simp)
  rcases h3 : m.experience_score with _ | ex <;> rw [h3] at h
  · exact absurd h (by simp)
  rcases h4 : c.contact with _ | ct <;> rw [h4] at h
  · exact absurd h (by simp)
  exact ⟨base, sk, ex, ct, rfl, rfl, rfl, rfl, (Option.some_inj.1 h).symm⟩

lemma presentNonempty_false_of_getD_nil {α : Type} {o : Option (List α)}
    (h : o.getD [] = []) : presentNonempty o = false := by
  cases o with
  | none => rfl
  | some l =>
      simp only [Option.getD] at h
      simp [presentNonempty, h]

lemma getD_ne_nil_of_presentNonempty {α : Type} {o : Option (List α)}
    (h : presentNonempty o = true) : o.getD [] ≠ [] := by
  cases o with
  | none => simp [presentNonempty] at h
  | some l =>
      simp only [presentNonempty, Bool.not_eq_true'] at h
      simp only [Option.getD]
      exact fun hl => by simp [hl] at h

lemma completeness_eq_zero {c : Candidate}
    (h1 : presentNonempty c.experience = false)
    (h2 : presentNonempty c.skills = false)
    (h3 : presentNonempty c.education = false) :
    completeness_factor c = 0 := by
  simp [completeness_factor, h1, h2, h3]

lemma completeness_eq_one {c : Candidate}
    (h1 : presentNonempty c.experience = true)
    (h2 : presentNonempty c.skills = true)
    (h3 : presentNonempty c.education = true) :
    completeness_factor c = 1 := by
  simp [completeness_factor, h1, h2, h3]
  norm_num

lemma ccf_eq_zero {criticals matched : List String}
    (hc : criticals ≠ [])
    (hm : ∀ s ∈ matched, ∀ crit ∈ criticals,
      py_str_in (py_lower crit) (py_lower s) = false) :
    critical_coverage_factor criticals matched = 0 := by
  unfold critical_coverage_factor
  rw [if_neg (by simpa using hc)]
  have hfil : matched.filter (fun s =>
      criticals.any (fun crit => py_str_in (py_lower crit) (py_lower s))) = [] := by
    rw [List.filter_eq_nil_iff]
    intro s hs
    simp only [List.any_eq_true, not_exists, not_and, Bool.not_eq_true]
    intro crit hcrit
    simp [hm s hs crit hcrit]
  rw [hfil]
  simp

lemma ccf_ge_one {criticals matched : List String}
    (hcov : criticals.length ≤ (matched.filter (fun s =>
      criticals.any (fun crit => py_str_in (py_lower crit) (py_lower s)))).length) :
    1 ≤ critical_coverage_factor criticals matched := by
  unfold critical_coverage_factor
  split_ifs with h
  · norm_num
  · have hlen : 0 < criticals.length :=
      List.length_pos.2 (by simpa using h)
    have hq : (criticals.length : ℚ) ≤
        ((matched.filter (fun s =>
          criticals.any (fun crit => py_str_in (py_lower crit) (py_lower s)))).length : ℚ) := by
      exact_mod_cast hcov
    have hpos : (0 : ℚ) < (criticals.length : ℚ) := by exact_mod_cast hlen
    have hdiv : (1 : ℚ) ≤ ((matched.filter (fun s =>
        criticals.any (fun crit => py_str_in (py_lower crit) (py_lower s)))).length : ℚ)
        / (criticals.length : ℚ) := (one_le_div hpos).2 hq
    nlinarith

lemma detail_eq_one {exps : List Experience} (hne : exps ≠ [])
    (h : 200 * (exps.length : ℚ) ≤ (exps.map (fun e => (e.description.length : ℚ))).sum) :
    experience_detail_factor exps = 1 := by
  unfold experience_detail_factor
  rw [if_neg (by simpa using hne)]
  have hlen : 0 < exps.length := List.length_pos.2 hne
  have hpos : (0 : ℚ) < (exps.length : ℚ) := by exact_mod_cast hlen
  have havg : (200 : ℚ) ≤ (exps.map (fun e => (e.description.length : ℚ))).sum
      / (exps.length : ℚ) := by
    rw [le_div_iff₀ hpos]
    linarith
  have : (1 : ℚ) ≤ ((exps.map (fun e => (e.description.length : ℚ))).sum
      / (exps.length : ℚ)) / 200 := by
    rw [le_div_iff₀ (by norm_num : (0:ℚ) < 200)]
    linarith
  exact min_eq_left this

/-! ### Concrete evaluations -/

lemma criticals_job1 : extract_critical_skills job1 = [("python")] := by decide

lemma conf_in1 : calculate_confidence [("python")] cand1 ms1 [] [] = 59 / 120 := by
  rw [calc_conf_eq]
  rw [show (ms1.skills_score.getD 0 : ℚ) = 50 from rfl,
      show (ms1.experience_score.getD 0 : ℚ) = 50 from rfl,
      show (ms1.education_score.getD 0 : ℚ) = 50 from rfl,
      np_std_triple_same]
  norm_num [completeness_factor, cand1, presentNonempty, critical_coverage_factor,
    experience_detail_factor, min_def]

lemma gaps_in1 : identify_gaps [("python")] 2 cand1 [] [] =
    ([("No evidence of python"), ("No work experience details")],
     [("python"), ("work_experience")]) := by decide

lemma an_in1 : analyze_candidate job1 cand1 ms1 =
    some (mkAnalysis job1 cand1 ms1 65 ⟨some ("X"), some ("x@example.com")⟩) := rfl

lemma level_in1 : (mkAnalysis job1 cand1 ms1 65
    ⟨some ("X"), some ("x@example.com")⟩).confidence_level =
    ConfidenceLevel.medium := by
  simp only [mkAnalysis, criticals_job1,
    show ms1.matched_skills.getD [] = [] from rfl,
    show ms1.missing_skills.getD [] = [] from rfl]
  rw [conf_in1, determine_eq_medium (by norm_num) (by norm_num)]

lemma dec_in1 : (mkAnalysis job1 cand1 ms1 65
    ⟨some ("X"), some ("x@example.com")⟩).decision =
    AgentDecision.ask_questions := by
  simp only [mkAnalysis, criticals_job1,
    show ms1.matched_skills.getD [] = [] from rfl,
    show ms1.missing_skills.getD [] = [] from rfl]
  rw [conf_in1, determine_eq_medium (by norm_num) (by norm_num),
    show job1.min_experience = 2 from rfl, gaps_in1]
  rfl

lemma criticals_job3 : extract_critical_skills job3 = [("a"), ("b")] := by decide

lemma ccf_in3 : critical_coverage_factor [("a"), ("b")] [("ab")] = 3 / 4 := by
  have hfil : ([("ab")] : List String).filter (fun s =>
      ([("a"), ("b")] : List String).any (fun crit =>
        py_str_in (py_lower crit) (py_lower s))) = [("ab")] := by decide
  simp only [critical_coverage_factor, hfil]
  norm_num

lemma detail_in3 : experience_detail_factor [⟨("short")⟩] = 1 / 40 := by
  simp only [experience_detail_factor]
  norm_num [show (String.length ("short") : ℚ) = 5 from by norm_num [String.length],
    min_def]

lemma conf_in3 : calculate_confidence [("a"), ("b")] cand3 ms3 [("ab")] [] = 111 / 160 := by
  rw [calc_conf_eq]
  rw [show (ms3.skills_score.getD 0 : ℚ) = 75 from rfl,
      show (ms3.experience_score.getD 0 : ℚ) = 75 from rfl,
      show (ms3.education_score.getD 0 : ℚ) = 75 from rfl,
      np_std_triple_same,
      show cand3.experience.getD [] = [⟨("short")⟩] from rfl,
      ccf_in3, detail_in3]
  norm_num [completeness_factor, cand3, presentNonempty, min_def]

lemma an_in3 : analyze_candidate job3 cand3 ms3 =
    some (mkAnalysis job3 cand3 ms3 75 ⟨some ("N"), some ("n@example.com")⟩) := rfl

lemma level_in3 : (mkAnalysis job3 cand3 ms3 75
    ⟨some ("N"), some ("n@example.com")⟩).confidence_level =
    ConfidenceLevel.medium := by
  simp only [mkAnalysis, criticals_job3,
    show ms3.matched_skills.getD [] = [("ab")] from rfl,
    show ms3.missing_skills.getD [] = [] from rfl]
  rw [conf_in3, determine_eq_medium (by norm_num) (by norm_num)]

lemma make_decision_high (gaps : List String) (base : ℚ) :
    make_decision ConfidenceLevel.high gaps base = AgentDecision.auto_shortlist := rfl

lemma make_decision_medium (gaps : List String) (base : ℚ) :
    make_decision ConfidenceLevel.medium gaps base =
      if !gaps.isEmpty then AgentDecision.ask_questions
      else if base ≥ 60 then AgentDecision.auto_shortlist
      else AgentDecision.ask_questions := rfl

lemma make_decision_low (gaps : List String) (base : ℚ) :
    make_decision ConfidenceLevel.low gaps base =
      if gaps.length ≤ 2 ∧ base ≥ 40 then AgentDecision.ask_questions
      else AgentDecision.auto_reject := rfl

lemma an_in2 : analyze_candidate job1 cand2 ms2 =
    some (mkAnalysis job1 cand2 ms2 30 ⟨none, none⟩) := rfl

lemma an_in4 : analyze_candidate job1 cand4 ms4 =
    some (mkAnalysis job1 cand4 ms4 80 ⟨some ("M"), some ("m@example.com")⟩) := rfl

/-! ### Claim theorems -/

/-- C7 (amended): for every analysis run on a candidate with zero
experience entries, zero projects, empty-or-absent skills and
education sections, a non-empty critical-skill set none of whose
skills matches any matched skill, and a base overall score below 40,
the decision is AUTO_REJECT. -/
theorem C7_reject_amended (job : JobData) (c : Candidate) (m : MatchScores)
    (a : CandidateAnalysis) (ha : analyze_candidate job c m = some a)
    (hexp : c.experience.getD [] = [])
    (_hproj : c.projects.getD [] = [])
    (hsk : presentNonempty c.skills = false)
    (hed : presentNonempty c.education = false)
    (hcrit : extract_critical_skills job ≠ [])
    (hm : ∀ s ∈ m.matched_skills.getD [], ∀ crit ∈ extract_critical_skills job,
      py_str_in (py_lower crit) (py_lower s) = false)
    (hbase : a.base_score < 40) :
    a.decision = AgentDecision.auto_reject := by
  obtain ⟨base, sk, ex, ct, h1, h2, h3, h4, rfl⟩ := analyze_some ha
  have hb : (mkAnalysis job c m base ct).base_score = base := rfl
  rw [hb] at hbase
  have hdet : experience_detail_factor ([] : List Experience) = 0.3 := by
    norm_num [experience_detail_factor]
  have hconf : calculate_confidence (extract_critical_skills job) c m
      (m.matched_skills.getD []) (m.missing_skills.getD []) < 0.40 := by
    rw [calc_conf_eq,
      completeness_eq_zero (presentNonempty_false_of_getD_nil hexp) hsk hed,
      ccf_eq_zero hcrit hm, hexp, hdet]
    refine lt_of_le_of_lt (min_le_right _ _) ?_
    have hle := consistency_le_one
      [((m.skills_score.getD 0 : ℚ) : ℝ),
       ((m.experience_score.getD 0 : ℚ) : ℝ),
       ((m.education_score.getD 0 : ℚ) : ℝ)]
    push_cast
    linarith
  show (mkAnalysis job c m base ct).decision = _
  simp only [mkAnalysis]
  rw [determine_eq_low hconf, make_decision_low, if_neg]
  rintro ⟨-, h40⟩
  exact absurd hbase (not_lt.2 h40)

/-- C8 (amended): for every analysis run where the matched skills give
full critical-skill coverage as the code counts it (at least as many
matched skills contain some critical skill as there are critical
skills), the experience, skills and education sections are present and
non-empty, the average experience-description length is at least 200
characters, and the base overall score is at least 75, the confidence
level is HIGH and the decision is AUTO_SHORTLIST. -/
theorem C8_shortlist_amended (job : JobData) (c : Candidate) (m : MatchScores)
    (a : CandidateAnalysis) (ha : analyze_candidate job c m = some a)
    (hcov : (extract_critical_skills job).length ≤
      ((m.matched_skills.getD []).filter (fun s =>
        (extract_critical_skills job).any (fun crit =>
          py_str_in (py_lower crit) (py_lower s)))).length)
    (hexp : presentNonempty c.experience = true)
    (hsk : presentNonempty c.skills = true)
    (hed : presentNonempty c.education = true)
    (hdetail : 200 * ((c.experience.getD []).length : ℚ) ≤
      ((c.experience.getD []).map (fun e => (e.description.length : ℚ))).sum)
    (hbase : 75 ≤ a.base_score) :
    a.confidence_level = ConfidenceLevel.high ∧
      a.decision = AgentDecision.auto_shortlist := by
  obtain ⟨base, sk, ex, ct, h1, h2, h3, h4, rfl⟩ := analyze_some ha
  have hconf : (0.75 : ℝ) ≤ calculate_confidence (extract_critical_skills job) c m
      (m.matched_skills.getD []) (m.missing_skills.getD []) := by
    rw [calc_conf_eq, completeness_eq_one hexp hsk hed,
      detail_eq_one (getD_ne_nil_of_presentNonempty hexp) hdetail]
    have hf2 : (1 : ℝ) ≤ ((critical_coverage_factor (extract_critical_skills job)
        (m.matched_skills.getD []) : ℚ) : ℝ) := by
      exact_mod_cast ccf_ge_one hcov
    have hf4 := consistency_nonneg
      [((m.skills_score.getD 0 : ℚ) : ℝ),
       ((m.experience_score.getD 0 : ℚ) : ℝ),
       ((m.education_score.getD 0 : ℚ) : ℝ)]
    refine le_min (by norm_num) ?_
    push_cast
    push_cast at hf2
    linarith
  refine ⟨?_, ?_⟩
  · show (mkAnalysis job c m base ct).confidence_level = _
    simp only [mkAnalysis]
    rw [determine_eq_high hconf]
  · show (mkAnalysis job c m base ct).decision = _
    simp only [mkAnalysis]
    rw [determine_eq_high hconf, make_decision_high]

/-- Closed form of the `missing_info` component of `identify_gaps`. -/
lemma identify_gaps_fst_eq (criticals : List String) (minExp : ℚ) (c : Candidate)
    (matched missing : List String) :
    (identify_gaps criticals minExp c matched missing).1 =
      (criticals.filter (fun crit =>
        !matched.any (fun s => py_str_in (py_lower crit) (py_lower s)))).map
          (fun crit => ("No evidence of ") ++ crit) ++
      (if c.experience.getD [] = [] then [("No work experience details")]
       else if 2 * (c.experience.getD []).countP
           (fun e => e.description.length < 50) > (c.experience.getD []).length
         then [("Work experience lacks detail")]
       else []) ++
      (if minExp < 2 ∧ c.projects.getD [] = [] then [("No projects mentioned")]
       else []) := by
  simp only [identify_gaps, List.isEmpty_iff]
  congr 1
  · congr 1
    split_ifs <;> rfl
  · split_ifs <;> rfl

/-- Closed form of the `critical_gaps` component of `identify_gaps`. -/
lemma identify_gaps_snd_eq (criticals : List String) (minExp : ℚ) (c : Candidate)
    (matched missing : List String) :
    (identify_gaps criticals minExp c matched missing).2 =
      criticals.filter (fun crit =>
        !matched.any (fun s => py_str_in (py_lower crit) (py_lower s))) ++
      (if c.experience.getD [] = [] then [("work_experience")] else []) ++
      (if minExp < 2 ∧ c.projects.getD [] = [] ∧ c.experience.getD [] = []
        then [("projects")] else []) := by
  simp only [identify_gaps, List.isEmpty_iff]
  congr 1
  · split_ifs <;> simp_all
  · split_ifs <;> simp_all

/-- C1: for every analysis run the decision is determined by the
confidence level, the critical-gaps list and the base overall score as
follows: HIGH yields AUTO_SHORTLIST unconditionally; MEDIUM yields
ASK_QUESTIONS on non-empty critical gaps, else AUTO_SHORTLIST when the
base score is at least 60, else ASK_QUESTIONS; LOW yields
ASK_QUESTIONS when the gap count is at most 2 and the base score is at
least 40, else AUTO_REJECT. -/
theorem C1_decision_rule :
    (∀ (job : JobData) (c : Candidate) (m : MatchScores) (a : CandidateAnalysis),
      analyze_candidate job c m = some a →
        a.decision = make_decision a.confidence_level a.critical_gaps a.base_score) ∧
    (∀ (gaps : List String) (base : ℚ),
      make_decision ConfidenceLevel.high gaps base = AgentDecision.auto_shortlist) ∧
    (∀ (gaps : List String) (base : ℚ), gaps ≠ [] →
      make_decision ConfidenceLevel.medium gaps base = AgentDecision.ask_questions) ∧
    (∀ base : ℚ, 60 ≤ base →
      make_decision ConfidenceLevel.medium [] base = AgentDecision.auto_shortlist) ∧
    (∀ base : ℚ, base < 60 →
      make_decision ConfidenceLevel.medium [] base = AgentDecision.ask_questions) ∧
    (∀ (gaps : List String) (base : ℚ), gaps.length ≤ 2 → 40 ≤ base →
      make_decision ConfidenceLevel.low gaps base = AgentDecision.ask_questions) ∧
    (∀ (gaps : List String) (base : ℚ), ¬(gaps.length ≤ 2 ∧ 40 ≤ base) →
      make_decision ConfidenceLevel.low gaps base = AgentDecision.auto_reject) := by
  refine ⟨?_, ?_, ?_, ?_, ?_, ?_, ?_⟩
  · intro job c m a ha
    obtain ⟨base, sk, ex, ct, h1, h2, h3, h4, rfl⟩ := analyze_some ha
    rfl
  · intro gaps base
    exact make_decision_high gaps base
  · intro gaps base h
    rw [make_decision_medium, if_pos (by simpa using h)]
  · intro base h
    rw [make_decision_medium, if_neg (by simp), if_pos h]
  · intro base h
    rw [make_decision_medium, if_neg (by simp), if_neg (not_le.2 h)]
  · intro gaps base h1 h2
    rw [make_decision_low, if_pos ⟨h1, h2⟩]
  · intro gaps base h
    rw [make_decision_low, if_neg h]

/-- C1 (witness): the decision table evaluated at concrete inputs, and
a concrete analysis run whose stored decision is the table applied to
its own stored level, gaps and base score. -/
theorem C1_decision_rule_witness :
    make_decision ConfidenceLevel.high [] 0 = AgentDecision.auto_shortlist ∧
    make_decision ConfidenceLevel.medium [("g")] 100 = AgentDecision.ask_questions ∧
    make_decision ConfidenceLevel.medium [] 60 = AgentDecision.auto_shortlist ∧
    make_decision ConfidenceLevel.medium [] 59 = AgentDecision.ask_questions ∧
    make_decision ConfidenceLevel.low [("g")] 40 = AgentDecision.ask_questions ∧
    make_decision ConfidenceLevel.low [("a"), ("b"), ("c")] 100 = AgentDecision.auto_reject ∧
    (mkAnalysis job1 cand4 ms4 80 ⟨some ("M"), some ("m@example.com")⟩).decision =
      make_decision
        (mkAnalysis job1 cand4 ms4 80 ⟨some ("M"), some ("m@example.com")⟩).confidence_level
        (mkAnalysis job1 cand4 ms4 80 ⟨some ("M"), some ("m@example.com")⟩).critical_gaps
        (mkAnalysis job1 cand4 ms4 80 ⟨some ("M"), some ("m@example.com")⟩).base_score :=
  ⟨C1_decision_rule.2.1 [] 0,
   C1_decision_rule.2.2.1 [("g")] 100 (by simp),
   C1_decision_rule.2.2.2.1 60 (by norm_num),
   C1_decision_rule.2.2.2.2.1 59 (by norm_num),
   C1_decision_rule.2.2.2.2.2.1 [("g")] 40 (by norm_num) (by norm_num),
   C1_decision_rule.2.2.2.2.2.2 [("a"), ("b"), ("c")] 100 (by norm_num),
   C1_decision_rule.1 job1 cand4 ms4 _ an_in4⟩

/-- C9: the confidence-score-to-level mapping uses lower-inclusive
thresholds 0.75 and 0.40: scores at least 0.75 map to HIGH, scores in
[0.40, 0.75) map to MEDIUM, scores below 0.40 map to LOW. -/
theorem C9_confidence_level_thresholds (x : ℝ) :
    (0.75 ≤ x → determine_confidence_level x = ConfidenceLevel.high) ∧
    (0.40 ≤ x → x < 0.75 → determine_confidence_level x = ConfidenceLevel.medium) ∧
    (x < 0.40 → determine_confidence_level x = ConfidenceLevel.low) :=
  ⟨determine_eq_high, determine_eq_medium, determine_eq_low⟩

/-- C9 (witness): the boundary scores 0.75 and 0.40 map to HIGH and
MEDIUM respectively; 0.39 maps to LOW. -/
theorem C9_confidence_level_witness :
    determine_confidence_level 0.75 = ConfidenceLevel.high ∧
    determine_confidence_level 0.40 = ConfidenceLevel.medium ∧
    determine_confidence_level 0.39 = ConfidenceLevel.low :=
  ⟨(C9_confidence_level_thresholds 0.75).1 (by norm_num),
   (C9_confidence_level_thresholds 0.40).2.1 (by norm_num) (by norm_num),
   (C9_confidence_level_thresholds 0.39).2.2 (by norm_num)⟩

/-- C10: the missing-info list is at least as long as the
critical-gaps list, and every critical-gap entry is a critical skill
or one of the literals "work_experience" and "projects". -/
theorem C10_gap_invariant (criticals : List String) (minExp : ℚ) (c : Candidate)
    (matched missing : List String) :
    (identify_gaps criticals minExp c matched missing).2.length ≤
      (identify_gaps criticals minExp c matched missing).1.length ∧
    ∀ x ∈ (identify_gaps criticals minExp c matched missing).2,
      x ∈ criticals ∨ x = ("work_experience") ∨ x = ("projects") := by
  constructor
  · simp only [identify_gaps]
    split_ifs <;>
      simp [List.length_append, List.length_map]
  · intro x hx
    simp only [identify_gaps, List.mem_append] at hx
    rcases hx with (hx | hx) | hx
    · exact Or.inl (List.mem_filter.1 hx).1
    · split_ifs at hx <;> simp_all
    · split_ifs at hx <;> simp_all

/-- C10 (witness): the invariant applied to a concrete run, with the
membership hypothesis discharged on the concrete gap
"work_experience". -/
theorem C10_gap_invariant_witness :
    (identify_gaps [("python")] 2 cand1 [] []).2.length ≤
      (identify_gaps [("python")] 2 cand1 [] []).1.length ∧
    (("work_experience" : String) ∈ ([("python")] : List String) ∨
      ("work_experience" : String) = ("work_experience") ∨
      ("work_experience" : String) = ("projects")) :=
  ⟨(C10_gap_invariant [("python")] 2 cand1 [] []).1,
   (C10_gap_invariant [("python")] 2 cand1 [] []).2 _ (by decide)⟩

/-- C2 (counterexample): with critical skill "python" and matched
skills ["python", "python3"], the code's factor is 3 (both matched
skills contain "python", giving coverage 2/1), while the fraction of
the critical-skill set found among the matched skills is 1, so the
spec's formula gives 1.5. -/
theorem C2_counterexample :
    critical_coverage_factor [("python")] [("python"), ("python3")] = 3 ∧
    spec_critical_coverage_factor [("python")] [("python"), ("python3")] = 3 / 2 ∧
    critical_coverage_factor [("python")] [("python"), ("python3")] ≠
      spec_critical_coverage_factor [("python")] [("python"), ("python3")] := by
  have h1 : critical_coverage_factor [("python")] [("python"), ("python3")] = 3 := by
    have hfil : ([("python"), ("python3")] : List String).filter (fun s =>
        ([("python")] : List String).any (fun crit =>
          py_str_in (py_lower crit) (py_lower s))) = [("python"), ("python3")] := by
      decide
    simp only [critical_coverage_factor, hfil]
    norm_num
  have h2 : spec_critical_coverage_factor [("python")] [("python"), ("python3")] = 3 / 2 := by
    have hfil : ([("python")] : List String).filter (fun crit =>
        ([("python"), ("python3")] : List String).any (fun s =>
          py_str_in (py_lower crit) (py_lower s))) = [("python")] := by
      decide
    simp only [spec_critical_coverage_factor, hfil]
    norm_num
  refine ⟨h1, h2, ?_⟩
  rw [h1, h2]
  norm_num

/-- C2 (amended): for a non-empty critical-skill set the factor equals
the number of matched skills containing at least one critical skill as
a case-insensitive substring, divided by the number of critical
skills, times 1.5; for an empty critical-skill set it is 1.0. -/
theorem C2_coverage_amended (criticals matched : List String) :
    (criticals ≠ [] →
      critical_coverage_factor criticals matched =
        ((matched.countP (fun s => criticals.any (fun crit =>
          py_str_in (py_lower crit) (py_lower s))) : ℚ) / (criticals.length : ℚ)) * 1.5) ∧
    (criticals = [] → critical_coverage_factor criticals matched = 1) := by
  constructor
  · intro h
    unfold critical_coverage_factor
    rw [if_neg (by simpa using h), List.countP_eq_length_filter]
  · intro h
    subst h
    rfl

/-- C2 (witness): the amended formula evaluated on the counterexample
input. -/
theorem C2_coverage_witness :
    critical_coverage_factor [("python")] [("python"), ("python3")] =
      ((([("python"), ("python3")] : List String).countP (fun s =>
        ([("python")] : List String).any (fun crit =>
          py_str_in (py_lower crit) (py_lower s))) : ℚ) /
        (([("python")] : List String).length : ℚ)) * 1.5 :=
  (C2_coverage_amended [("python")] [("python"), ("python3")]).1 (by simp)

/-- C3 (amended): the final confidence is the unweighted mean of the
four factors clamped from above at 1.0; the formula applies no lower
clamp, but every factor is nonnegative, so the final confidence is
never negative. -/
theorem C3_confidence_amended (criticals : List String) (c : Candidate)
    (m : MatchScores) (matched missing : List String) :
    calculate_confidence criticals c m matched missing =
      min 1 ((((completeness_factor c : ℚ) : ℝ) +
        ((critical_coverage_factor criticals matched : ℚ) : ℝ) +
        ((experience_detail_factor (c.experience.getD []) : ℚ) : ℝ) +
        max 0 (1 - np_std
          [((m.skills_score.getD 0 : ℚ) : ℝ),
           ((m.experience_score.getD 0 : ℚ) : ℝ),
           ((m.education_score.getD 0 : ℚ) : ℝ)] / 50)) / 4) ∧
    0 ≤ calculate_confidence criticals c m matched missing :=
  ⟨calc_conf_eq criticals c m matched missing,
   calc_conf_nonneg criticals c m matched missing⟩

/-- C3 (counterexample to the negativity part): no input yields a
negative confidence score — the critical-skill-coverage overflow can
only push the mean up, never below zero. -/
theorem C3_no_negative_confidence :
    ¬ ∃ (criticals : List String) (c : Candidate) (m : MatchScores)
        (matched missing : List String),
      calculate_confidence criticals c m matched missing < 0 := by
  rintro ⟨crit, c, m, ma, mi, h⟩
  exact absurd (calc_conf_nonneg crit c m ma mi) (not_le.2 h)

/-- C5 (counterexample): a candidate record without a `contact` entry
makes `analyze_candidate` fail (the Python code raises `KeyError` at
`candidate_data['contact']`). -/
theorem C5_counterexample : analyze_candidate job1 cand5 ms1 = none := rfl

/-- C5 (amended): `analyze` raises no error provided the candidate
record has a `contact` entry and the match-scores record has
`overall_score`, `skills_score` and `experience_score` entries; within
those, missing subfields degrade to safe defaults (absent name →
"Unknown", absent email → ""). -/
theorem C5_analyze_total_amended (job : JobData) (c : Candidate) (m : MatchScores)
    (base sk ex : ℚ) (ct : Contact)
    (h1 : m.overall_score = some base) (h2 : m.skills_score = some sk)
    (h3 : m.experience_score = some ex) (h4 : c.contact = some ct) :
    ∃ a, analyze_candidate job c m = some a ∧
      a.candidate_name = ct.name.getD ("Unknown") ∧
      a.candidate_email = ct.email.getD ("") := by
  refine ⟨mkAnalysis job c m base ct, ?_, rfl, rfl⟩
  unfold analyze_candidate
  rw [h1, h2, h3, h4]

/-- C5 (witness): a concrete run with contact present but name and
email absent succeeds and defaults the name to "Unknown". -/
theorem C5_analyze_total_witness :
    ∃ a, analyze_candidate job1 cand2 ms2 = some a ∧
      a.candidate_name = ("Unknown") ∧ a.candidate_email = ("") := by
  obtain ⟨a, ha, hn, he⟩ :=
    C5_analyze_total_amended job1 cand2 ms2 30 30 30 ⟨none, none⟩ rfl rfl rfl rfl
  exact ⟨a, ha, by simpa using hn, by simpa using he⟩

/-- C4: gap identification emits a "No evidence of" note and a
critical gap for every unmatched critical skill; adds
"work_experience" (with note) when the experience list is empty; emits
a "lacks detail" note when more than half the experience descriptions
are under 50 characters, without touching critical gaps (the closed
form of the gaps list does not depend on that condition); and, when
the minimum-experience threshold is below 2 and there are no projects,
emits a "no projects" note, adding the "projects" gap only when the
candidate also has zero experience entries. -/
theorem C4_gap_identification (criticals : List String) (minExp : ℚ)
    (c : Candidate) (matched missing : List String) :
    (∀ crit ∈ criticals,
      (∀ s ∈ matched, py_str_in (py_lower crit) (py_lower s) = false) →
        (("No evidence of ") ++ crit) ∈
          (identify_gaps criticals minExp c matched missing).1 ∧
        crit ∈ (identify_gaps criticals minExp c matched missing).2) ∧
    (c.experience.getD [] = [] →
      ("No work experience details") ∈
        (identify_gaps criticals minExp c matched missing).1 ∧
      ("work_experience") ∈ (identify_gaps criticals minExp c matched missing).2) ∧
    (c.experience.getD [] ≠ [] →
      2 * (c.experience.getD []).countP (fun e => e.description.length < 50) >
        (c.experience.getD []).length →
      ("Work experience lacks detail") ∈
        (identify_gaps criticals minExp c matched missing).1) ∧
    (minExp < 2 → c.projects.getD [] = [] →
      ("No projects mentioned") ∈ (identify_gaps criticals minExp c matched missing).1 ∧
      (c.experience.getD [] = [] →
        ("projects") ∈ (identify_gaps criticals minExp c matched missing).2)) ∧
    ((identify_gaps criticals minExp c matched missing).2 =
      criticals.filter (fun crit =>
        !matched.any (fun s => py_str_in (py_lower crit) (py_lower s))) ++
      (if c.experience.getD [] = [] then [("work_experience")] else []) ++
      (if minExp < 2 ∧ c.projects.getD [] = [] ∧ c.experience.getD [] = []
        then [("projects")] else [])) := by
  refine ⟨?_, ?_, ?_, ?_, identify_gaps_snd_eq criticals minExp c matched missing⟩
  · intro crit hc hnm
    have hpred : (!matched.any (fun s =>
        py_str_in (py_lower crit) (py_lower s))) = true := by
      rw [Bool.not_eq_true', List.any_eq_false]
      intro s hs
      simp [hnm s hs]
    constructor
    · rw [identify_gaps_fst_eq]
      exact List.mem_append.2 (Or.inl (List.mem_append.2 (Or.inl
        (List.mem_map.2 ⟨crit, List.mem_filter.2 ⟨hc, hpred⟩, rfl⟩))))
    · rw [identify_gaps_snd_eq]
      exact List.mem_append.2 (Or.inl (List.mem_append.2 (Or.inl
        (List.mem_filter.2 ⟨hc, hpred⟩))))
  · intro hE
    constructor
    · simp [identify_gaps_fst_eq, hE]
    · simp [identify_gaps_snd_eq, hE]
  · intro hne hv
    rw [identify_gaps_fst_eq, if_neg hne, if_pos hv]
    simp
  · intro hmin hproj
    constructor
    · simp [identify_gaps_fst_eq, hmin, hproj]
    · intro hE
      simp [identify_gaps_snd_eq, hmin, hproj, hE]

/-- C4 (witness): all three gap kinds on a concrete run — the critical
skill "docker" is unmatched, the experience list is empty, and the
entry-level projects branch fires. -/
theorem C4_gap_identification_witness :
    (("No evidence of docker") ∈ (identify_gaps [("docker")] 0 cand2 [("python")] []).1 ∧
      ("docker") ∈ (identify_gaps [("docker")] 0 cand2 [("python")] []).2) ∧
    (("No work experience details") ∈
        (identify_gaps [("docker")] 0 cand2 [("python")] []).1 ∧
      ("work_experience") ∈ (identify_gaps [("docker")] 0 cand2 [("python")] []).2) ∧
    (("No projects mentioned") ∈ (identify_gaps [("docker")] 0 cand2 [("python")] []).1 ∧
      ("projects") ∈ (identify_gaps [("docker")] 0 cand2 [("python")] []).2) :=
  ⟨(C4_gap_identification [("docker")] 0 cand2 [("python")] []).1
      ("docker") (by decide) (by decide),
   (C4_gap_identification [("docker")] 0 cand2 [("python")] []).2.1 rfl,
   ((C4_gap_identification [("docker")] 0 cand2 [("python")] []).2.2.2.1
      (by norm_num) rfl).1,
   ((C4_gap_identification [("docker")] 0 cand2 [("python")] []).2.2.2.1
      (by norm_num) rfl).2 rfl⟩

/-- C6 (counterexample): a successful API call whose response fails to
parse does not fall back to the template — `_parse_questions` absorbs
the failure and returns a single question wrapping the raw text,
addressed to "general" with priority "medium". -/
theorem C6_counterexample :
    generate_questions (some (("hello"), ParseResult.malformed)) [("FastAPI")] [("n")] =
      [⟨("hello"), ("general"), ("medium")⟩] ∧
    generate_questions (some (("hello"), ParseResult.malformed)) [("FastAPI")] [("n")] ≠
      generate_template_questions [("FastAPI")] [("n")] := by
  constructor
  · decide
  · decide

/-- C6 (amended): on failure of the external-model call,
`generate_questions` falls back to the deterministic template — one
canned question per gap for the first 3 critical gaps, each keyed by
its gap and marked priority "high"; on failure to parse the model's
response it instead returns a single question wrapping the stripped
raw response text with gap "general" and priority "medium". -/
theorem C6_fallback_amended :
    (∀ gaps mi, generate_questions none gaps mi = generate_template_questions gaps mi) ∧
    (∀ gaps mi, (generate_template_questions gaps mi).length = min 3 gaps.length ∧
      (generate_template_questions gaps mi).map QA.gap_addressed = gaps.take 3 ∧
      ∀ q ∈ generate_template_questions gaps mi, q.priority = ("high")) ∧
    (∀ gaps mi text r, (∀ qs, r ≠ ParseResult.ok qs) →
      generate_questions (some (text, r)) gaps mi =
        [⟨py_strip text, ("general"), ("medium")⟩]) := by
  refine ⟨fun gaps mi => rfl, ?_, ?_⟩
  · intro gaps mi
    refine ⟨?_, ?_, ?_⟩
    · simp [generate_template_questions]
    · simp only [generate_template_questions, List.map_map]
      conv_rhs => rw [← List.map_id (gaps.take 3)]
      refine List.map_congr_left ?_
      intro gap _
      by_cases h1 : gap = ("work_experience")
      · simp [h1, Function.comp]
      · by_cases h2 : gap = ("projects")
        · simp [h1, h2, Function.comp]
        · simp [h1, h2, Function.comp]
    · intro q hq
      simp only [generate_template_questions, List.mem_map] at hq
      obtain ⟨gap, -, rfl⟩ := hq
      split_ifs <;> rfl
  · intro gaps mi text r h
    cases r with
    | ok qs => exact absurd rfl (h qs)
    | notList => rfl
    | malformed => rfl

/-- C6 (witness): the parse-failure fallback on a concrete unparseable
response, and the template priority on a concrete skill gap. -/
theorem C6_fallback_witness :
    generate_questions (some (("x"), ParseResult.notList)) [] [] =
      [⟨py_strip ("x"), ("general"), ("medium")⟩] ∧
    (⟨("The job requires Go. Do you have experience with Go? If yes, please describe one project where you used it."),
      ("Go"), ("high")⟩ : QA).priority = ("high") :=
  ⟨C6_fallback_amended.2.2 [] [] ("x") ParseResult.notList
      (fun qs h => ParseResult.noConfusion h),
   (C6_fallback_amended.2.1 [("Go")] []).2.2 _ (by decide)⟩

/-- C7 (counterexample): a candidate with zero experience entries,
zero projects and zero matched critical skills whose analysis decision
is ASK_QUESTIONS rather than AUTO_REJECT (the confidence lands MEDIUM
and the MEDIUM branch never rejects). -/
theorem C7_counterexample :
    cand1.experience.getD [] = [] ∧
    cand1.projects.getD [] = [] ∧
    (∀ crit ∈ extract_critical_skills job1, ∀ s ∈ ms1.matched_skills.getD [],
      py_str_in (py_lower crit) (py_lower s) = false) ∧
    (analyze_candidate job1 cand1 ms1).map CandidateAnalysis.decision =
      some AgentDecision.ask_questions := by
  refine ⟨rfl, rfl, by decide, ?_⟩
  rw [an_in1]
  simp [dec_in1]

/-- C7 (witness): the amended rejection theorem applied to a concrete
fully-empty candidate with a non-empty unmatched critical-skill set
and base score 30. -/
theorem C7_reject_witness :
    ∃ a, analyze_candidate job1 cand2 ms2 = some a ∧
      a.decision = AgentDecision.auto_reject :=
  ⟨_, an_in2,
   C7_reject_amended job1 cand2 ms2 _ an_in2 rfl rfl rfl rfl (by decide) (by decide)
     (by rw [show (mkAnalysis job1 cand2 ms2 30 ⟨none, none⟩).base_score = (30 : ℚ) from rfl]
         norm_num)⟩

/-- C8 (counterexample): a candidate matching 100% of the critical
skills (each of "a" and "b" is a substring of the matched skill "ab"),
with non-empty experience, education and skills sections and overall
score exactly 75, whose confidence level is MEDIUM, not HIGH (the
code's coverage counts matched skills, giving 1/2 here, and the vague
experience description drags the mean below 0.75). -/
theorem C8_counterexample :
    (∀ crit ∈ extract_critical_skills job3, ∃ s ∈ ms3.matched_skills.getD [],
      py_str_in (py_lower crit) (py_lower s) = true) ∧
    presentNonempty cand3.experience = true ∧
    presentNonempty cand3.skills = true ∧
    presentNonempty cand3.education = true ∧
    ms3.overall_score = some 75 ∧
    (analyze_candidate job3 cand3 ms3).map CandidateAnalysis.confidence_level =
      some ConfidenceLevel.medium := by
  refine ⟨by decide, rfl, rfl, rfl, rfl, ?_⟩
  rw [an_in3]
  simp [level_in3]

/-- C8 (witness): the amended shortlist theorem applied to a concrete
candidate with full coverage, complete sections, a 200-character
experience description and overall score 80. -/
theorem C8_shortlist_witness :
    ∃ a, analyze_candidate job1 cand4 ms4 = some a ∧
      a.confidence_level = ConfidenceLevel.high ∧
      a.decision = AgentDecision.auto_shortlist :=
  ⟨_, an_in4,
   C8_shortlist_amended job1 cand4 ms4 _ an_in4 (by decide) rfl rfl rfl
     (by rw [show cand4.experience.getD [] =
           [⟨String.mk (List.replicate 200 'a')⟩] from rfl]
         norm_num [show (String.mk (List.replicate 200 'a')).length = 200 from by
           show (List.replicate 200 'a').length = 200
           rw [List.length_replicate]])
     (by rw [show (mkAnalysis job1 cand4 ms4 80
           ⟨some ("M"), some ("m@example.com")⟩).base_score = (80 : ℚ) from rfl]
         norm_num)⟩

end ResumeAgent
